import Mathlib

/-!  Shallow embedding of the request-fetch-normalize-persist core of the
weather/currency chat bot: `get_currency_rate` and `get_weather` from
`src/bot.py`, and `save_weather_request`, `save_currency_request` and
`get_user_stats` from `src/database.py`.

Modelling conventions.  An HTTP response is a status code plus an optional
parsed document (`none` models a body that fails JSON parsing); Python's
`None` is `Option.none`; a missing JSON field is `none`, and reading such a
field with `data[k]` (which raises `KeyError`, caught by the source's
catch-all handler returning Python `None`) collapses to the fetch returning
`none`, exactly as every other failure path of the source does.  The SQLite
store is a pair of row lists plus a reachability flag (`reachable = false`
models `get_connection()` returning `None`).  Currency codes are modelled
as character lists so that the `GROUP_CONCAT(DISTINCT ...)` / `split(',')`
behaviour of `get_user_stats` is expressible. -/

namespace WCB

/-- One entry of the CBR `Valute` table, holding the fields
`get_currency_rate` reads: `Name`, `Value`, `Previous`.  A field the
provider omits is `none`. -/
structure ValuteEntry where
  name : Option String
  value : Option ℚ
  previous : Option ℚ
  deriving DecidableEq

/-- The parsed body of a CBR daily-rates response: an optional `Valute`
table (an association list from currency code to entry) and an optional
top-level `Date` string. -/
structure CbrDoc where
  valute : Option (List (String × ValuteEntry))
  date : Option String
  deriving DecidableEq

/-- An HTTP response from the CBR provider: status code plus optional
parsed body (`none` = unparseable). -/
structure CbrResp where
  status : Nat
  body : Option CbrDoc
  deriving DecidableEq

/-- The dictionary `get_currency_rate` returns on success (`name`, `value`,
`previous`, `date`). -/
structure CurrencyQuote where
  name : String
  value : ℚ
  previous : ℚ
  date : String
  deriving DecidableEq

/-- Python string slicing `s[:n]`: the first `n` characters. -/
def strTake (s : String) (n : Nat) : String := String.mk (s.data.take n)

/-- Embeds `get_currency_rate` from `src/bot.py` lines 44-89.  Non-200
status, unparseable body, missing `Valute` section, missing code, and a
`KeyError` on `Name`/`Value`/`Previous`/`Date` all return `none`, exactly
as each such path in the source returns Python `None`. -/
def get_currency_rate (currency_code : String) (resp : CbrResp) : Option CurrencyQuote :=
  if resp.status ≠ 200 then none
  else
    match resp.body with
    | none => none
    | some data =>
      match data.valute with
      | none => none
      | some table =>
        match table.lookup currency_code with
        | none => none
        | some currency_data =>
          match currency_data.name, currency_data.value, currency_data.previous, data.date with
          | some n, some v, some p, some d =>
            some { name := n, value := v, previous := p, date := strTake d 10 }
          | _, _, _, _ => none

/-- The `main` block of an OpenWeatherMap response: the fields the source
reads with `.get`, each possibly absent. -/
structure MainBlock where
  temp : Option ℚ
  feels_like : Option ℚ
  humidity : Option ℚ
  pressure : Option ℚ
  deriving DecidableEq

/-- One element of the `weather` (conditions) list. -/
structure CondEntry where
  description : Option String
  deriving DecidableEq

/-- The optional `wind` block. -/
structure WindBlock where
  speed : Option ℚ
  deriving DecidableEq

/-- The parsed body of an OpenWeatherMap response. -/
structure WeatherDoc where
  name : Option String
  main : Option MainBlock
  weather : Option (List CondEntry)
  wind : Option WindBlock
  deriving DecidableEq

/-- An HTTP response from the weather provider. -/
structure WeatherResp where
  status : Nat
  body : Option WeatherDoc
  deriving DecidableEq

/-- The dictionary `get_weather` returns on success.  `temp` and
`feels_like` keep their `Option` type because the source reads them with
`data['main'].get('temp')` / `.get('feels_like')` with no default: a `main`
block lacking them yields a dictionary holding Python `None` there. -/
structure Weather where
  city : String
  temp : Option ℚ
  feels_like : Option ℚ
  description : String
  humidity : ℚ
  wind : ℚ
  pressure : ℚ
  deriving DecidableEq

/-- Embeds `get_weather` from `src/bot.py` lines 151-198.  Status 404 and
any other non-200 status both return `none` (the source logs them
differently but returns `None` in both).  A missing `main` or `weather`
key returns `none` (the explicit completeness check); a present but empty
`weather` list returns `none` because `data['weather'][0]` raises
`IndexError`, caught by the catch-all handler. -/
def get_weather (city : String) (resp : WeatherResp) : Option Weather :=
  if resp.status = 404 then none
  else if resp.status ≠ 200 then none
  else
    match resp.body with
    | none => none
    | some data =>
      match data.main, data.weather with
      | none, _ => none
      | _, none => none
      | some _, some [] => none
      | some m, some (w0 :: _) =>
        some { city := data.name.getD city, temp := m.temp, feels_like := m.feels_like,
               description := w0.description.getD "неизвестно",
               humidity := m.humidity.getD 0,
               wind := (data.wind.bind WindBlock.speed).getD 0,
               pressure := m.pressure.getD 0 }

/-- A row of the `weather_requests` table.  `temperature` is plain `ℚ`:
the only writer, `save_weather_request`, rejects a `None` temperature
before inserting. -/
structure WeatherRow where
  user_id : ℤ
  username : Option String
  city : String
  temperature : ℚ
  description : String
  deriving DecidableEq

/-- A row of the `currency_requests` table.  The code is a character list
(see the module comment). -/
structure CurrencyRow where
  user_id : ℤ
  username : Option String
  currency_code : List Char
  rate : ℚ
  deriving DecidableEq

/-- The SQLite store: its two tables as append-only row lists, plus a flag
modelling whether `get_connection()` succeeds. -/
structure Store where
  reachable : Bool
  weather_requests : List WeatherRow
  currency_requests : List CurrencyRow
  deriving DecidableEq

/-- Embeds `save_weather_request` from `src/database.py` lines 73-99:
reject (`false`, no write) when `city` is empty or `temperature` is
`None`; reject when the store is unreachable; otherwise append one row and
return `true`.  `temperature.getD 0` is only evaluated in the branch where
the guard has ruled out `none`. -/
def save_weather_request (s : Store) (user_id : ℤ) (username : Option String)
    (city : String) (temperature : Option ℚ) (description : String) : Bool × Store :=
  if city = "" ∨ temperature = none then (false, s)
  else if s.reachable = false then (false, s)
  else
    (true, { s with weather_requests := s.weather_requests ++
      [{ user_id := user_id, username := username, city := city,
         temperature := temperature.getD 0, description := description }] })

/-- Embeds `save_currency_request` from `src/database.py` lines 102-128,
symmetric to `save_weather_request`: reject when `currency_code` is empty
or `rate` is `None`. -/
def save_currency_request (s : Store) (user_id : ℤ) (username : Option String)
    (currency_code : List Char) (rate : Option ℚ) : Bool × Store :=
  if currency_code = [] ∨ rate = none then (false, s)
  else if s.reachable = false then (false, s)
  else
    (true, { s with currency_requests := s.currency_requests ++
      [{ user_id := user_id, username := username, currency_code := currency_code,
         rate := rate.getD 0 }] })

/-- The dictionary `get_user_stats` returns when the store is reachable. -/
structure Stats where
  weather_requests : Nat
  avg_temperature : Option ℚ
  currency_requests : Nat
  currencies_used : List (List Char)
  deriving DecidableEq

/-- Round-half-to-even of a rational to an integer, the tie rule of
Python's builtin `round`. -/
def roundHalfEven (q : ℚ) : ℤ :=
  if q - Int.floor q < 1 / 2 then Int.floor q
  else if 1 / 2 < q - Int.floor q then Int.floor q + 1
  else if Int.floor q % 2 = 0 then Int.floor q else Int.floor q + 1

/-- Python `round(x, 1)`: round to one decimal place, ties to even. -/
def pyRound1 (q : ℚ) : ℚ := (roundHalfEven (q * 10) : ℚ) / 10

/-- Python `s.split(',')` on character lists: splitting the empty string
gives one empty piece, and each comma starts a new piece. -/
def splitComma : List Char → List (List Char)
  | [] => [[]]
  | c :: cs => if c = ',' then [] :: splitComma cs else (splitComma cs).modifyHead (c :: ·)

/-- Joining with `','`, as SQLite `GROUP_CONCAT` does between values. -/
def intercalateComma : List (List Char) → List Char
  | [] => []
  | [c] => c
  | c :: cs => c ++ ',' :: intercalateComma cs

/-- The distinct values of a list, first occurrence kept, modelling the
`DISTINCT` of `GROUP_CONCAT(DISTINCT currency_code)` (SQLite leaves the
concatenation order unspecified; this model fixes scan order, and the
theorems about it only use the value up to set equality). -/
def distinctKeepFirst : List (List Char) → List (List Char)
  | [] => []
  | c :: cs => c :: (distinctKeepFirst cs).filter (fun d => d ≠ c)

/-- The `currency_code` column of the user's `currency_requests` rows, in
table order: what `SELECT ... WHERE user_id = ?` ranges over. -/
def userCurrencyCodes (s : Store) (uid : ℤ) : List (List Char) :=
  (s.currency_requests.filter (fun r => r.user_id == uid)).map CurrencyRow.currency_code

/-- The `temperature` column of the user's `weather_requests` rows. -/
def userTemperatures (s : Store) (uid : ℤ) : List ℚ :=
  (s.weather_requests.filter (fun r => r.user_id == uid)).map WeatherRow.temperature

/-- Embeds `get_user_stats` from `src/database.py` lines 131-169.  An
unreachable store returns `none`, modelling the empty dictionary `{}` the
source returns there (distinct from the zeroed dictionary below).  SQL
`COUNT(*)` is the filtered row count, SQL `AVG` is `sum / count` (`NULL`,
i.e. `none`, over zero rows), and `GROUP_CONCAT(DISTINCT ...)` is the
comma join of the distinct codes (`NULL` over zero rows).  The source then
post-processes by Python truthiness: `round(avg, 1) if weather_stats and
weather_stats[1] else None` maps both a `NULL` average and an average of
exactly `0` to `None`, and `currencies.split(',') if currency_stats and
currency_stats[1] else []` maps both a `NULL` and an empty concatenation
to `[]`. -/
def get_user_stats (s : Store) (user_id : ℤ) : Option Stats :=
  if s.reachable = false then none
  else
    let temps := userTemperatures s user_id
    let avg_temp : Option ℚ :=
      if temps.length = 0 then none else some (temps.sum / (temps.length : ℚ))
    let codes := userCurrencyCodes s user_id
    let currencies : Option (List Char) :=
      match distinctKeepFirst codes with
      | [] => none
      | l => some (intercalateComma l)
    let avg_rounded : Option ℚ :=
      match avg_temp with
      | none => none
      | some a => if a = 0 then none else some (pyRound1 a)
    let used : List (List Char) :=
      match currencies with
      | none => []
      | some joined => if joined = [] then [] else splitComma joined
    some { weather_requests := temps.length, avg_temperature := avg_rounded,
           currency_requests := codes.length, currencies_used := used }

/-!  Concrete fixtures used by witnesses, counterexamples and concrete
evaluations. -/

/-- A fully populated `Valute` entry for USD. -/
def usdEntry : ValuteEntry :=
  { name := some "Доллар США", value := some (821 / 10), previous := some (817 / 10) }

/-- A well-formed CBR document holding one USD entry and a timestamped
date string. -/
def cbrDocFull : CbrDoc :=
  { valute := some [("USD", usdEntry)], date := some "2025-01-15T11:30:00+03:00" }

/-- A successful CBR response carrying `cbrDocFull`. -/
def cbrRespFull : CbrResp := { status := 200, body := some cbrDocFull }

/-- A parsed CBR document with no `Valute` section. -/
def cbrDocNoValute : CbrDoc := { valute := none, date := some "2025-01-15T11:30:00+03:00" }

/-- A fully populated `main` block. -/
def mainFull : MainBlock :=
  { temp := some (43 / 2), feels_like := some (203 / 10), humidity := some 40, pressure := some 1015 }

/-- A fully populated weather document. -/
def docFull : WeatherDoc :=
  { name := some "Москва", main := some mainFull,
    weather := some [{ description := some "ясно" }], wind := some { speed := some (16 / 5) } }

/-- A successful weather response carrying `docFull`. -/
def respFull : WeatherResp := { status := 200, body := some docFull }

/-- The snapshot `get_weather` builds from `respFull`. -/
def snapFull : Weather :=
  { city := "Москва", temp := some (43 / 2), feels_like := some (203 / 10), description := "ясно",
    humidity := 40, wind := (16 / 5), pressure := 1015 }

/-- A weather document whose `main` and `weather` blocks are present but
whose `main` block lacks `temp` and `feels_like`. -/
def docNoTemp : WeatherDoc :=
  { name := some "Москва",
    main := some { temp := none, feels_like := none, humidity := some 55, pressure := some 1013 },
    weather := some [{ description := some "ясно" }], wind := none }

/-- A weather document missing only `humidity` inside `main`. -/
def docNoHum : WeatherDoc :=
  { name := some "Казань",
    main := some { temp := some (11 / 2), feels_like := some (31 / 10), humidity := none, pressure := some 990 },
    weather := some [{ description := some "дождь" }], wind := some { speed := some 7 } }

/-- The snapshot `get_weather` builds from `docNoHum`: humidity defaulted
to `0`. -/
def snapNoHum : Weather :=
  { city := "Казань", temp := some (11 / 2), feels_like := some (31 / 10), description := "дождь",
    humidity := 0, wind := 7, pressure := 990 }

/-- A weather document whose `weather` list is present but empty. -/
def docEmptyCond : WeatherDoc :=
  { name := some "Сочи", main := some mainFull, weather := some [], wind := none }

/-!  Claim theorems. -/

/-- C5: for every currency code present in the provider response's
`Valute` table (with its `Name`, `Value`, `Previous` fields and the
document's `Date` present, as in any mocked provider response),
`get_currency_rate` succeeds and returns a quote whose `value` and
`previous` equal the provider's `Value` and `Previous` fields for that
code, and whose date equals the first 10 characters of the provider's
top-level date string. -/
theorem get_currency_rate_success (code : String) (resp : CbrResp) (data : CbrDoc)
    (table : List (String × ValuteEntry)) (e : ValuteEntry) (n : String) (v p : ℚ) (d : String)
    (hs : resp.status = 200) (hb : resp.body = some data) (hv : data.valute = some table)
    (hl : table.lookup code = some e) (hn : e.name = some n) (hval : e.value = some v)
    (hp : e.previous = some p) (hd : data.date = some d) :
    get_currency_rate code resp =
      some { name := n, value := v, previous := p, date := strTake d 10 } := by
  simp [get_currency_rate, hs, hb, hv, hl, hn, hval, hp, hd]

/-- C5 witness: `get_currency_rate` on the concrete mocked response
`cbrRespFull` returns the USD quote with the date truncated to 10
characters. -/
theorem get_currency_rate_success_witness :
    get_currency_rate "USD" cbrRespFull =
      some { name := "Доллар США", value := (821 / 10), previous := (817 / 10),
             date := strTake "2025-01-15T11:30:00+03:00" 10 } :=
  get_currency_rate_success "USD" cbrRespFull cbrDocFull [("USD", usdEntry)] usdEntry
    "Доллар США" (821 / 10) (817 / 10) "2025-01-15T11:30:00+03:00"
    rfl rfl rfl rfl rfl rfl rfl rfl

/-- C7: for every well-formed provider response whose parsed data lacks
the `Valute` section, or whose table lacks an entry for the requested
code, `get_currency_rate` returns the failure value `none` — never a
zero-valued or default-valued quote. -/
theorem get_currency_rate_not_found (code : String) (resp : CbrResp) (data : CbrDoc)
    (hb : resp.body = some data)
    (h : data.valute = none ∨ ∃ table, data.valute = some table ∧ table.lookup code = none) :
    get_currency_rate code resp = none := by
  unfold get_currency_rate
  by_cases hs : resp.status ≠ 200
  · simp [hs]
  · rcases h with h | ⟨table, ht, hl⟩
    · simp [hs, hb, h]
    · simp [hs, hb, ht, hl]

/-- C7 witness: a concrete parsed response with no `Valute` section, and a
concrete well-formed table with no RUB entry, both yield `none`. -/
theorem get_currency_rate_not_found_witness :
    get_currency_rate "USD" { status := 200, body := some cbrDocNoValute } = none :=
  get_currency_rate_not_found "USD" { status := 200, body := some cbrDocNoValute }
    cbrDocNoValute rfl (Or.inl rfl)

/-- C8: for every store state, `save_weather_request` with an empty city
or a `None` temperature returns `false` and performs no write (the store,
hence every user's record count, is unchanged); symmetrically
`save_currency_request` rejects an empty currency code or a `None` rate
without writing. -/
theorem save_request_rejects_invalid :
    (∀ (s : Store) (uid : ℤ) (un : Option String) (city : String) (t : Option ℚ) (d : String),
        city = "" ∨ t = none → save_weather_request s uid un city t d = (false, s)) ∧
    (∀ (s : Store) (uid : ℤ) (un : Option String) (code : List Char) (r : Option ℚ),
        code = [] ∨ r = none → save_currency_request s uid un code r = (false, s)) := by
  constructor
  · intro s uid un city t d h
    unfold save_weather_request
    rw [if_pos h]
  · intro s uid un code r h
    unfold save_currency_request
    rw [if_pos h]

/-- C10: for every provider response whose `main` block is present (even
complete) but whose `weather` conditions list is present and empty,
`get_weather` fails for the whole fetch (the `IndexError` path) rather
than returning a snapshot with the default description. -/
theorem get_weather_empty_conditions (city : String) (resp : WeatherResp) (data : WeatherDoc)
    (m : MainBlock) (hs : resp.status = 200) (hb : resp.body = some data)
    (hm : data.main = some m) (hw : data.weather = some []) :
    get_weather city resp = none := by
  simp [get_weather, hs, hb, hm, hw]

/-- C10 witness: the concrete document `docEmptyCond` (complete `main`
block, empty conditions list) makes `get_weather` fail. -/
theorem get_weather_empty_conditions_witness :
    get_weather "Sochi" { status := 200, body := some docEmptyCond } = none :=
  get_weather_empty_conditions "Sochi" { status := 200, body := some docEmptyCond }
    docEmptyCond mainFull rfl rfl rfl rfl

/-- C2 counterexample: a provider response whose `main` and `weather`
blocks are present but whose `main` block lacks `temp` and `feels_like`
still yields a snapshot — with `temp` and `feels_like` both `none` — so a
returned snapshot does not guarantee non-null temperatures. -/
theorem get_weather_null_temp_cex :
    get_weather "Moscow" { status := 200, body := some docNoTemp } =
      some { city := "Москва", temp := none, feels_like := none, description := "ясно",
             humidity := 55, wind := 0, pressure := 1013 } := rfl

/-- C2 (amended): whenever `get_weather` returns a snapshot, the response
had status 200 and its parsed body contained both the `main` block and a
non-empty `weather` conditions list; `temp` and `feels_like` are copied
verbatim from the `main` block (possibly `none` — they are not
validated). -/
theorem get_weather_some_requires_blocks (city : String) (resp : WeatherResp) (w : Weather)
    (h : get_weather city resp = some w) :
    resp.status = 200 ∧ ∃ data, resp.body = some data ∧
      data.main.isSome = true ∧ (∃ w0 ws, data.weather = some (w0 :: ws)) ∧
      w.temp = data.main.bind MainBlock.temp ∧
      w.feels_like = data.main.bind MainBlock.feels_like := by
  by_cases h404 : resp.status = 404
  · simp [get_weather, h404] at h
  by_cases h200 : resp.status = 200
  · refine ⟨h200, ?_⟩
    cases hb : resp.body with
    | none => simp [get_weather, h404, h200, hb] at h
    | some data =>
      refine ⟨data, rfl, ?_⟩
      cases hm : data.main with
      | none => simp [get_weather, h404, h200, hb, hm] at h
      | some m =>
        cases hw : data.weather with
        | none => simp [get_weather, h404, h200, hb, hm, hw] at h
        | some ws =>
          cases ws with
          | nil => simp [get_weather, h404, h200, hb, hm, hw] at h
          | cons w0 rest =>
            simp [get_weather, h404, h200, hb, hm, hw, Option.some.injEq] at h
            subst h
            exact ⟨rfl, ⟨w0, rest, rfl⟩, rfl, rfl⟩
  · simp [get_weather, h404, h200] at h

/-- C2 witness for the amended claim, at the fully populated concrete
response `respFull`. -/
theorem get_weather_some_requires_blocks_witness :
    respFull.status = 200 ∧ ∃ data, respFull.body = some data ∧
      data.main.isSome = true ∧ (∃ w0 ws, data.weather = some (w0 :: ws)) ∧
      snapFull.temp = data.main.bind MainBlock.temp ∧
      snapFull.feels_like = data.main.bind MainBlock.feels_like :=
  get_weather_some_requires_blocks "Москва" respFull snapFull rfl

/-- C4 counterexample: a 404 response and a 500 response (same body)
produce the very same result value `none`, so the caller cannot
distinguish a city-not-found failure from a generic provider error by the
returned value. -/
theorem get_weather_404_indistinct_cex :
    get_weather "Moscow" { status := 404, body := some docFull } = none ∧
    get_weather "Moscow" { status := 500, body := some docFull } = none ∧
    get_weather "Moscow" { status := 404, body := some docFull } =
      get_weather "Moscow" { status := 500, body := some docFull } :=
  ⟨rfl, rfl, rfl⟩

/-- C4 (amended): for every non-success HTTP status — 404 included —
`get_weather` fails with the same value `none`; the not-found case is
distinguished only in the log message, not in the returned result. -/
theorem get_weather_non_success_none (city : String) (resp : WeatherResp)
    (h : resp.status ≠ 200) : get_weather city resp = none := by
  unfold get_weather
  split
  · rfl
  · simp [h]

/-- C4 witness for the amended claim, at a concrete 503 response. -/
theorem get_weather_non_success_none_witness :
    get_weather "Moscow" { status := 503, body := some docFull } = none :=
  get_weather_non_success_none "Moscow" { status := 503, body := some docFull } (by decide)

/-- C6: on a successful weather fetch with both required blocks present,
each optional field gets its specified default when the provider omits
it: humidity 0, wind 0, pressure 0, description the sentinel value, and
the resolved city name falls back to the queried city string. -/
theorem get_weather_field_defaults (city : String) (resp : WeatherResp) (data : WeatherDoc)
    (m : MainBlock) (w0 : CondEntry) (ws : List CondEntry) (w : Weather)
    (hs : resp.status = 200) (hb : resp.body = some data) (hm : data.main = some m)
    (hw : data.weather = some (w0 :: ws)) (h : get_weather city resp = some w) :
    (m.humidity = none → w.humidity = 0) ∧ (data.wind = none → w.wind = 0) ∧
    (m.pressure = none → w.pressure = 0) ∧
    (w0.description = none → w.description = "неизвестно") ∧
    (data.name = none → w.city = city) := by
  have h404 : ¬ resp.status = 404 := by rw [hs]; decide
  simp [get_weather, h404, hs, hb, hm, hw] at h
  subst h
  refine ⟨?_, ?_, ?_, ?_, ?_⟩ <;> intro hh <;> simp [hh]

/-- C6 witness: the concrete response missing only `humidity` yields a
successful snapshot with humidity defaulted to `0`. -/
theorem get_weather_field_defaults_witness :
    get_weather "Kazan" { status := 200, body := some docNoHum } = some snapNoHum ∧
    snapNoHum.humidity = 0 :=
  ⟨rfl, (get_weather_field_defaults "Kazan" { status := 200, body := some docNoHum }
    docNoHum { temp := some (11 / 2), feels_like := some (31 / 10), humidity := none,
               pressure := some 990 }
    { description := some "дождь" } [] snapNoHum rfl rfl rfl rfl rfl).1 rfl⟩

/-- C3 counterexample: with the store unreachable, `get_user_stats`
returns the empty dictionary (modelled `none`), not the zeroed statistics
record it returns for a user with no records — so the two cases give
different values and a caller can distinguish them. -/
theorem get_user_stats_unreachable_cex :
    get_user_stats { reachable := false, weather_requests := [], currency_requests := [] } 1 =
      none ∧
    get_user_stats { reachable := true, weather_requests := [], currency_requests := [] } 1 =
      some { weather_requests := 0, avg_temperature := none, currency_requests := 0,
             currencies_used := [] } ∧
    (none : Option Stats) ≠
      some { weather_requests := 0, avg_temperature := none, currency_requests := 0,
             currencies_used := [] } :=
  ⟨rfl, rfl, by simp⟩

/-- C3 (amended): an unreachable store makes `get_user_stats` return the
empty dictionary (`none`), while a reachable store with no records for
the user returns the zeroed statistics (0, 0, null, []); "no data" and
"store error" are therefore distinguishable by the returned value. -/
theorem get_user_stats_empty_vs_unreachable :
    (∀ (w : List WeatherRow) (c : List CurrencyRow) (uid : ℤ),
        get_user_stats { reachable := false, weather_requests := w, currency_requests := c }
          uid = none) ∧
    (∀ (s : Store) (uid : ℤ), s.reachable = true →
        (∀ r ∈ s.weather_requests, r.user_id ≠ uid) →
        (∀ r ∈ s.currency_requests, r.user_id ≠ uid) →
        get_user_stats s uid =
          some { weather_requests := 0, avg_temperature := none, currency_requests := 0,
                 currencies_used := [] }) := by
  constructor
  · intro w c uid; rfl
  · intro s uid hr hw hc
    have hwf : s.weather_requests.filter (fun r => r.user_id == uid) = [] := by
      rw [List.filter_eq_nil_iff]
      intro r hri
      simpa using hw r hri
    have hcf : s.currency_requests.filter (fun r => r.user_id == uid) = [] := by
      rw [List.filter_eq_nil_iff]
      intro r hri
      simpa using hc r hri
    simp [get_user_stats, hr, userTemperatures, userCurrencyCodes, hwf, hcf, distinctKeepFirst]

/-- The empty, reachable store. -/
def emptyStore : Store := { reachable := true, weather_requests := [], currency_requests := [] }

/-- C1's failing input: the store after appending one valid weather
record whose temperature is exactly `0`. -/
def storeZero : Store := (save_weather_request emptyStore 1 none "Москва" (some 0) "ясно").2

/-- The store after appending two valid weather records with temperatures
10 and 20, the spec's own round-trip example. -/
def store10 : Store := (save_weather_request emptyStore 1 none "Москва" (some 10) "ясно").2

/-- Second append on top of `store10`. -/
def store10_20 : Store := (save_weather_request store10 1 none "Москва" (some 20) "пасмурно").2

/-- C1: evaluation of the code at the spec's example and at the failing
input.  Two appended records with temperatures 10 and 20 do round-trip to
count 2 and average 15.0; but one appended record with temperature 0
yields count 1 with a `null` average, although the user has a nonzero
number of weather records — the source's truthiness test
`if weather_stats and weather_stats[1]` treats an average of exactly 0.0
like the no-records `NULL`. -/
theorem get_user_stats_zero_mean_bug :
    get_user_stats store10_20 1 =
      some { weather_requests := 2, avg_temperature := some 15, currency_requests := 0,
             currencies_used := [] } ∧
    (save_weather_request emptyStore 1 none "Москва" (some 0) "ясно").1 = true ∧
    get_user_stats storeZero 1 =
      some { weather_requests := 1, avg_temperature := none, currency_requests := 0,
             currencies_used := [] } := by
  refine ⟨?_, rfl, ?_⟩
  · have h1 : store10_20 =
        { reachable := true,
          weather_requests :=
            [{ user_id := 1, username := none, city := "Москва", temperature := 10,
               description := "ясно" },
             { user_id := 1, username := none, city := "Москва", temperature := 20,
               description := "пасмурно" }],
          currency_requests := [] } := rfl
    rw [h1]
    norm_num [get_user_stats, userTemperatures, userCurrencyCodes, distinctKeepFirst,
      pyRound1, roundHalfEven]
  · have h2 : storeZero =
        { reachable := true,
          weather_requests :=
            [{ user_id := 1, username := none, city := "Москва", temperature := 0,
               description := "ясно" }],
          currency_requests := [] } := rfl
    rw [h2]
    norm_num [get_user_stats, userTemperatures, userCurrencyCodes, distinctKeepFirst]

/-!  List lemmas for the join/split round trip of `get_user_stats`. -/

/-- Splitting after prepending a comma-free chunk prepends the chunk to
the first piece. -/
lemma splitComma_append (c rest : List Char) (hc : ',' ∉ c) :
    splitComma (c ++ rest) = (splitComma rest).modifyHead (c ++ ·) := by
  induction c with
  | nil =>
    rw [List.nil_append]
    cases hsp : splitComma rest <;> simp [List.modifyHead]
  | cons a as ih =>
    have ha : ¬ a = ',' := fun hh => hc (hh ▸ List.mem_cons_self a as)
    have has : ',' ∉ as := fun hh => hc (List.mem_cons_of_mem a hh)
    have h1 : splitComma ((a :: as) ++ rest) = (splitComma (as ++ rest)).modifyHead (a :: ·) := by
      simp [List.cons_append, splitComma, ha]
    rw [h1, ih has]
    cases hsp : splitComma rest <;> simp [List.modifyHead]

/-- The round trip: splitting the comma join of a non-empty list of
comma-free chunks recovers the list. -/
lemma splitComma_intercalateComma : ∀ (l : List (List Char)), l ≠ [] →
    (∀ c ∈ l, ',' ∉ c) → splitComma (intercalateComma l) = l := by
  intro l
  induction l with
  | nil => intro hne _; exact absurd rfl hne
  | cons c cs ih =>
    intro _ hc
    have h1 : ',' ∉ c := hc c (by simp)
    cases cs with
    | nil =>
      calc splitComma (intercalateComma [c]) = splitComma (c ++ []) := by
            rw [List.append_nil]; rfl
        _ = (splitComma []).modifyHead (c ++ ·) := splitComma_append c [] h1
        _ = [c] := by simp [splitComma, List.modifyHead]
    | cons c2 cs2 =>
      have hrest : ∀ x ∈ c2 :: cs2, ',' ∉ x := fun x hx => hc x (List.mem_cons_of_mem c hx)
      have hne2 : (c2 :: cs2 : List (List Char)) ≠ [] := by simp
      have hstep : intercalateComma (c :: c2 :: cs2) =
          c ++ ',' :: intercalateComma (c2 :: cs2) := rfl
      rw [hstep, splitComma_append c _ h1]
      have hsp : splitComma (',' :: intercalateComma (c2 :: cs2)) =
          [] :: splitComma (intercalateComma (c2 :: cs2)) := by simp [splitComma]
      rw [hsp, ih hne2 hrest]
      simp [List.modifyHead]

/-- Keeping first occurrences changes no memberships. -/
lemma mem_distinctKeepFirst (x : List Char) (l : List (List Char)) :
    x ∈ distinctKeepFirst l ↔ x ∈ l := by
  induction l with
  | nil => simp [distinctKeepFirst]
  | cons c cs ih =>
    simp only [distinctKeepFirst, List.mem_cons, List.mem_filter, ih, decide_eq_true_eq]
    constructor
    · rintro (rfl | ⟨h, _⟩)
      · exact Or.inl rfl
      · exact Or.inr h
    · rintro (rfl | h)
      · exact Or.inl rfl
      · by_cases hx : x = c
        · exact Or.inl hx
        · exact Or.inr ⟨h, hx⟩

/-- `distinctKeepFirst` returns the empty list only on the empty list. -/
lemma distinctKeepFirst_eq_nil {l : List (List Char)} :
    distinctKeepFirst l = [] ↔ l = [] := by
  cases l <;> simp [distinctKeepFirst]

/-- The comma join of a non-empty list of non-empty chunks is non-empty. -/
lemma intercalateComma_ne_nil : ∀ (l : List (List Char)), l ≠ [] →
    (∀ c ∈ l, c ≠ []) → intercalateComma l ≠ [] := by
  intro l hne h
  cases l with
  | nil => exact absurd rfl hne
  | cons c cs =>
    cases cs with
    | nil => simpa [intercalateComma] using h c (by simp)
    | cons c2 cs2 => simp [intercalateComma]

/-- C9: `currencies_used` is computed by joining the user's distinct
currency codes with commas and splitting on commas again, so whenever no
stored code of the user contains a comma (and, as the write-path
validation guarantees, no stored code is empty), the returned list has
exactly the user's distinct codes as elements; and a stored code that
does contain a comma comes back as several fragments — the concrete store
holding the single code `"A,B"` yields the two codes `"A"` and `"B"`. -/
theorem get_user_stats_currencies_join_split :
    (∀ (s : Store) (uid : ℤ) (st : Stats), get_user_stats s uid = some st →
        (∀ r ∈ s.currency_requests, r.user_id = uid → ',' ∉ r.currency_code) →
        (∀ r ∈ s.currency_requests, r.user_id = uid → r.currency_code ≠ []) →
        st.currencies_used.toFinset = (userCurrencyCodes s uid).toFinset) ∧
    get_user_stats
        { reachable := true, weather_requests := [],
          currency_requests := [{ user_id := 1, username := none,
                                  currency_code := ['A', ',', 'B'], rate := 42 }] } 1 =
      some { weather_requests := 0, avg_temperature := none, currency_requests := 1,
             currencies_used := [['A'], ['B']] } := by
  constructor
  · intro s uid st h hcomma hnonempty
    simp only [get_user_stats] at h
    by_cases hr : s.reachable = false
    · simp [hr] at h
    · rw [if_neg hr] at h
      simp only [Option.some.injEq] at h
      subst h
      have hmem : ∀ c ∈ userCurrencyCodes s uid,
          ∃ r ∈ s.currency_requests, r.user_id = uid ∧ r.currency_code = c := by
        intro c hcm
        simp only [userCurrencyCodes, List.mem_map, List.mem_filter, beq_iff_eq] at hcm
        obtain ⟨r, ⟨hr1, hr2⟩, hr3⟩ := hcm
        exact ⟨r, hr1, hr2, hr3⟩
      have hA : ∀ c ∈ userCurrencyCodes s uid, ',' ∉ c := by
        intro c hcm
        obtain ⟨r, h1, h2, h3⟩ := hmem c hcm
        exact h3 ▸ hcomma r h1 h2
      have hB : ∀ c ∈ userCurrencyCodes s uid, c ≠ [] := by
        intro c hcm
        obtain ⟨r, h1, h2, h3⟩ := hmem c hcm
        exact h3 ▸ hnonempty r h1 h2
      cases hd : distinctKeepFirst (userCurrencyCodes s uid) with
      | nil =>
        have hnil : userCurrencyCodes s uid = [] := distinctKeepFirst_eq_nil.mp hd
        simp [hd, hnil]
      | cons c cs =>
        have hsubmem : ∀ x ∈ c :: cs, x ∈ userCurrencyCodes s uid := fun x hx =>
          (mem_distinctKeepFirst x _).mp (hd ▸ hx)
        have hdcomma : ∀ x ∈ c :: cs, ',' ∉ x := fun x hx => hA x (hsubmem x hx)
        have hdne : ∀ x ∈ c :: cs, x ≠ [] := fun x hx => hB x (hsubmem x hx)
        have hinter : intercalateComma (c :: cs) ≠ [] :=
          intercalateComma_ne_nil _ (by simp) hdne
        simp only [hd, if_neg hinter,
          splitComma_intercalateComma (c :: cs) (by simp) hdcomma]
        ext x
        simp only [List.mem_toFinset, ← hd, mem_distinctKeepFirst]
  · rfl

end WCB
